import Mathlib

/-!
Verification of the Sensirion arduino-sht driver (`src/SHTSensor.h`).

The repository ships the class declarations in `SHTSensor.h`; the method
bodies live in `SHTSensor.cpp`, which is not part of `src/`.  Wherever a
definition below embeds such a missing body, its doc comment starts with
`Modelled from the spec:` and names the section of `spec.md` it follows.
Floating-point fields (the conversion coefficients and the cached sample)
are embedded as exact rationals `ℚ`; machine bytes and words are `Nat`
with explicit `% 256` / bit masking where the C types truncate.
-/

namespace SHT

/-! ## CRC-8 checksum -/

/-- Modelled from the spec: one bit-iteration of the CRC-8 loop of
`SHTI2cSensor::crc8` (declared at `SHTSensor.h:267`, body in the missing
`SHTSensor.cpp`).  Per spec §4.1: shift the running 8-bit value left and
XOR the polynomial `0x31` into it exactly when the top bit was set; the
`% 256` is the `uint8_t` truncation. -/
def crc8Round (crc : Nat) : Nat :=
  if crc &&& 0x80 ≠ 0 then ((crc <<< 1) ^^^ 0x31) % 256
  else (crc <<< 1) % 256

/-- Modelled from the spec: processing of one input byte by
`SHTI2cSensor::crc8` — XOR the byte into the running value, then run
eight bit-iterations (spec §4.1: "XOR-ing into the running value ...
eight iterations per byte"). -/
def crc8Update (crc b : Nat) : Nat :=
  crc8Round^[8] (crc ^^^ b)

/-- Modelled from the spec: `SHTI2cSensor::crc8` over a byte sequence,
with initial value `0xFF` (spec §4.1); the `(data, len)` pair of the C
signature is embedded as a `List Nat` of bytes. -/
def crc8 (data : List Nat) : Nat :=
  data.foldl crc8Update 0xFF

theorem crc8Round_lt (crc : Nat) : crc8Round crc < 256 := by
  unfold crc8Round
  split <;> exact Nat.mod_lt _ (by norm_num)

theorem crc8Round_iterate_lt (crc n : Nat) (hn : n ≠ 0) :
    crc8Round^[n] crc < 256 := by
  obtain ⟨m, rfl⟩ := Nat.exists_eq_succ_of_ne_zero hn
  rw [Function.iterate_succ_apply']
  exact crc8Round_lt _

theorem crc8Update_lt (crc b : Nat) : crc8Update crc b < 256 :=
  crc8Round_iterate_lt _ 8 (by norm_num)

theorem crc8_foldl_lt (data : List Nat) (crc : Nat) (h : crc < 256) :
    data.foldl crc8Update crc < 256 := by
  induction data generalizing crc with
  | nil => exact h
  | cons b rest ih => exact ih _ (crc8Update_lt _ _)

theorem crc8_lt (data : List Nat) : crc8 data < 256 :=
  crc8_foldl_lt data 0xFF (by norm_num)

/-! ### Linearity of the CRC over bitwise XOR -/

theorem xor_shiftLeft (a b i : Nat) :
    (a ^^^ b) <<< i = a <<< i ^^^ b <<< i := by
  apply Nat.eq_of_testBit_eq
  intro j
  simp [Nat.testBit_shiftLeft, Nat.testBit_xor, Bool.and_xor_distrib_left]

theorem xor_mod_two_pow (a b n : Nat) :
    (a ^^^ b) % 2 ^ n = a % 2 ^ n ^^^ b % 2 ^ n := by
  apply Nat.eq_of_testBit_eq
  intro j
  simp [Nat.testBit_mod_two_pow, Nat.testBit_xor, Bool.and_xor_distrib_left]

theorem xor_mod_256 (a b : Nat) :
    (a ^^^ b) % 256 = a % 256 ^^^ b % 256 :=
  xor_mod_two_pow a b 8

theorem xor_shuffle (p q r s : Nat) :
    (p ^^^ q) ^^^ (r ^^^ s) = (p ^^^ r) ^^^ (q ^^^ s) := by
  apply Nat.eq_of_testBit_eq
  intro j
  simp only [Nat.testBit_xor]
  cases p.testBit j <;> cases q.testBit j <;> cases r.testBit j <;>
    cases s.testBit j <;> rfl

theorem testBit7_xor (a b : Nat) :
    ((a ^^^ b) &&& 0x80 ≠ 0) ↔ ((a &&& 0x80 ≠ 0) ≠ (b &&& 0x80 ≠ 0)) := by
  have h128 : (0x80 : Nat) = 2 ^ 7 := by norm_num
  rw [h128, Nat.and_two_pow, Nat.and_two_pow, Nat.and_two_pow,
    Nat.testBit_xor]
  cases a.testBit 7 <;> cases b.testBit 7 <;> simp

theorem crc8Round_xor (a b : Nat) :
    crc8Round (a ^^^ b) = crc8Round a ^^^ crc8Round b := by
  have hsh := xor_shiftLeft a b 1
  by_cases ha : a &&& 0x80 ≠ 0 <;> by_cases hb : b &&& 0x80 ≠ 0
  · have hab : ¬((a ^^^ b) &&& 0x80 ≠ 0) := by
      rw [testBit7_xor]; simp [ha, hb]
    rw [crc8Round, if_neg hab, crc8Round, if_pos ha, crc8Round, if_pos hb,
      hsh, ← xor_mod_256]
    congr 1
    apply Nat.eq_of_testBit_eq
    intro j
    simp only [Nat.testBit_xor]
    cases (a <<< 1).testBit j <;> cases (b <<< 1).testBit j <;>
      cases (0x31 : Nat).testBit j <;> rfl
  · have hab : (a ^^^ b) &&& 0x80 ≠ 0 := by
      rw [testBit7_xor]; simp [ha, hb]
    rw [crc8Round, if_pos hab, crc8Round, if_pos ha, crc8Round, if_neg hb,
      hsh, ← xor_mod_256]
    congr 1
    apply Nat.eq_of_testBit_eq
    intro j
    simp only [Nat.testBit_xor]
    cases (a <<< 1).testBit j <;> cases (b <<< 1).testBit j <;>
      cases (0x31 : Nat).testBit j <;> rfl
  · have hab : (a ^^^ b) &&& 0x80 ≠ 0 := by
      rw [testBit7_xor]; simp [ha, hb]
    rw [crc8Round, if_pos hab, crc8Round, if_neg ha, crc8Round, if_pos hb,
      hsh, ← xor_mod_256]
    congr 1
    apply Nat.eq_of_testBit_eq
    intro j
    simp only [Nat.testBit_xor]
    cases (a <<< 1).testBit j <;> cases (b <<< 1).testBit j <;>
      cases (0x31 : Nat).testBit j <;> rfl
  · have hab : ¬((a ^^^ b) &&& 0x80 ≠ 0) := by
      rw [testBit7_xor]; simp [ha, hb]
    rw [crc8Round, if_neg hab, crc8Round, if_neg ha, crc8Round, if_neg hb,
      hsh, ← xor_mod_256]

theorem crc8Round_iterate_xor (n a b : Nat) :
    crc8Round^[n] (a ^^^ b) = crc8Round^[n] a ^^^ crc8Round^[n] b := by
  induction n generalizing a b with
  | zero => rfl
  | succ m ih =>
      rw [Function.iterate_succ_apply, Function.iterate_succ_apply,
        Function.iterate_succ_apply, crc8Round_xor, ih]

theorem crc8_pair (x0 x1 : Nat) :
    crc8 [x0, x1] = crc8Round^[8] (crc8Round^[8] (0xFF ^^^ x0) ^^^ x1) :=
  rfl

/-- Flipping bits of the first data byte shifts the CRC of the pair by a
syndrome that depends only on the flipped bits. -/
theorem crc8_flip_fst (x0 x1 e : Nat) :
    crc8 [x0 ^^^ e, x1] =
      crc8 [x0, x1] ^^^ crc8Round^[8] (crc8Round^[8] e) := by
  rw [crc8_pair, crc8_pair, ← Nat.xor_assoc, crc8Round_iterate_xor 8 _ e,
    Nat.xor_comm _ x1, ← Nat.xor_assoc, Nat.xor_comm x1 _,
    crc8Round_iterate_xor]

/-- Flipping bits of the second data byte shifts the CRC of the pair by a
syndrome that depends only on the flipped bits. -/
theorem crc8_flip_snd (x0 x1 e : Nat) :
    crc8 [x0, x1 ^^^ e] = crc8 [x0, x1] ^^^ crc8Round^[8] e := by
  rw [crc8_pair, crc8_pair, ← Nat.xor_assoc, crc8Round_iterate_xor]

/-- The syndrome of a single-bit error is never zero, in either byte
position: CRC-8/0x31 detects all single-bit errors in a two-byte word. -/
theorem crc8_single_bit_syndrome_ne_zero :
    ∀ k < 8, crc8Round^[8] (2 ^ k) ≠ 0 ∧
      crc8Round^[8] (crc8Round^[8] (2 ^ k)) ≠ 0 := by decide

theorem xor_ne_self (a e : Nat) (he : e ≠ 0) : a ^^^ e ≠ a := by
  intro h
  apply he
  calc e = a ^^^ (a ^^^ e) := (Nat.xor_cancel_left a e).symm
    _ = a ^^^ a := by rw [h]
    _ = 0 := Nat.xor_self a

theorem crc8_flip_fst_ne (x0 x1 : Nat) (k : Nat) (hk : k < 8) :
    crc8 [x0 ^^^ 2 ^ k, x1] ≠ crc8 [x0, x1] := by
  rw [crc8_flip_fst]
  exact xor_ne_self _ _ ((crc8_single_bit_syndrome_ne_zero k hk).2)

theorem crc8_flip_snd_ne (x0 x1 : Nat) (k : Nat) (hk : k < 8) :
    crc8 [x0, x1 ^^^ 2 ^ k] ≠ crc8 [x0, x1] := by
  rw [crc8_flip_snd]
  exact xor_ne_self _ _ ((crc8_single_bit_syndrome_ne_zero k hk).1)

/-! ## I2C transport primitive -/

/-- Outcome of one bus attempt: whether the command write completed and
whether the subsequent data read completed without transport error
(spec §4.2, §6: the bus primitive returns a simple success status for the
write and for the read). -/
structure I2cAttempt where
  writeOk : Bool
  readOk : Bool
deriving DecidableEq

/-- Modelled from the spec: the external two-wire bus collaborator
(spec §6), embedded as an oracle.  `attemptOutcome addr cmd i` is the
transport outcome of the `i`-th (re-)issue of command `cmd` to address
`addr` within one `readFromI2c` transaction, and `dataRead addr cmd` is
the byte sequence a successful read at that address delivers. -/
structure I2cEnv where
  attemptOutcome : Nat → List Nat → Nat → I2cAttempt
  dataRead : Nat → List Nat → List Nat

/-- One attempt succeeds only when both its bus write and its bus read
completed. -/
def attemptOk (a : I2cAttempt) : Bool := a.writeOk && a.readOk

/-- Modelled from the spec: the retry ceiling `MAX_I2C_READ_TRIES` of
`SHTI2cSensor` (declared at `SHTSensor.h:266`, value in the missing
`SHTSensor.cpp`); spec §4.2 gives 5 attempts as the example bound. -/
def MAX_I2C_READ_TRIES : Nat := 5

/-- Modelled from the spec: the retry loop of
`SHTI2cSensor::readFromI2c` (declared at `SHTSensor.h:268`, body in the
missing `SHTSensor.cpp`).  Per spec §4.2 each retry re-issues both the
command write and the data read; the loop stops at the first attempt in
which both complete, or when `tries` attempts are exhausted.  Returns the
success flag together with the number of attempts performed, starting
from attempt index `used`. -/
def readFromI2cAux (env : I2cEnv) (addr : Nat) (cmd : List Nat) :
    Nat → Nat → Bool × Nat
  | 0, used => (false, used)
  | tries + 1, used =>
      if attemptOk (env.attemptOutcome addr cmd used) then (true, used + 1)
      else readFromI2cAux env addr cmd tries (used + 1)

/-- Modelled from the spec: `SHTI2cSensor::readFromI2c` — issue the
command and read the reply, retrying up to `MAX_I2C_READ_TRIES` times
(spec §4.2). -/
def readFromI2c (env : I2cEnv) (addr : Nat) (cmd : List Nat) : Bool :=
  (readFromI2cAux env addr cmd MAX_I2C_READ_TRIES 0).1

/-! ## I2C sensor driver -/

/-- Per-instance state of `SHTI2cSensor` (`SHTSensor.h:220-272`):
the i2c address, the 16-bit measurement command, the five conversion
coefficients, and the cached sample inherited from `SHTSensorDriver`
(`SHTSensor.h:215-216`). -/
structure SHTI2cSensor where
  mI2cAddress : Nat
  mI2cCommand : Nat
  mA : ℚ
  mB : ℚ
  mC : ℚ
  mX : ℚ
  mY : ℚ
  mTemperature : ℚ
  mHumidity : ℚ
deriving DecidableEq

/-- Modelled from the spec: the command buffer `readSample` sends —
the 16-bit command as two bytes, big-endian (spec §4.3), each truncated
to `uint8_t`. -/
def SHTI2cSensor.cmdBytes (s : SHTI2cSensor) : List Nat :=
  [(s.mI2cCommand >>> 8) % 256, s.mI2cCommand &&& 0xff]

/-- Modelled from the spec: the CRC-validation and conversion stage of
`SHTI2cSensor::readSample` (spec §4.3) applied to the byte sequence the
bus read delivered.  The 6-byte reply is
`[t_msb, t_lsb, t_crc, h_msb, h_lsb, h_crc]`; the CRC-8 of each 2-byte
group is checked against its crc byte, failing without touching the
cache on mismatch; on success `rawT = msb<<8 | lsb` is converted via
`a + b*(raw/c)` and `rawH` via `x*(raw/y)` into the cached fields. -/
def SHTI2cSensor.parseFrame (s : SHTI2cSensor) :
    List Nat → Bool × SHTI2cSensor
  | [d0, d1, d2, d3, d4, d5] =>
      if crc8 [d0, d1] ≠ d2 ∨ crc8 [d3, d4] ≠ d5 then (false, s)
      else
        (true,
          { s with
            mTemperature :=
              s.mA + s.mB * ((((d0 <<< 8) ||| d1 : Nat) : ℚ) / s.mC),
            mHumidity := s.mX * ((((d3 <<< 8) ||| d4 : Nat) : ℚ) / s.mY) })
  | _ => (false, s)

/-- Modelled from the spec: `SHTI2cSensor::readSample` (declared at
`SHTSensor.h:250`, body in the missing `SHTSensor.cpp`).  Per spec §4.3:
issue the command to the configured address via `readFromI2c`; on
transport failure return false and leave the cache untouched; otherwise
validate and convert the delivered reply with `parseFrame`. -/
def SHTI2cSensor.readSample (env : I2cEnv) (s : SHTI2cSensor) :
    Bool × SHTI2cSensor :=
  if readFromI2c env s.mI2cAddress s.cmdBytes then
    s.parseFrame (env.dataRead s.mI2cAddress s.cmdBytes)
  else (false, s)

/-- Embeds `SHTI2cSensor::setI2cAddress` (`SHTSensor.h:252-255`): store
the new address and return true; no bus transaction, no validation. -/
def SHTI2cSensor.setI2cAddress (i2cAddress : Nat) (s : SHTI2cSensor) :
    Bool × SHTI2cSensor :=
  (true, { s with mI2cAddress := i2cAddress })

/-! ## Analog sensor driver -/

/-- Per-instance state of `SHT3xAnalogSensor` (`SHTSensor.h:274-317`):
the two ADC pins, the read resolution in bits, and the cached sample
inherited from `SHTSensorDriver`. -/
structure SHT3xAnalogSensor where
  mHumidityAdcPin : Nat
  mTemperatureAdcPin : Nat
  mReadResolutionBits : Nat
  mTemperature : ℚ
  mHumidity : ℚ
deriving DecidableEq

/-- Modelled from the spec: the fixed manufacturer transfer function of
the analog variant (spec §4.4: "a fixed linear formula").  The spec fixes
only that each channel is scaled linearly in the ratio of the raw ADC
value to the full-scale reading, not the coefficient values, so the
coefficients are carried explicitly. -/
structure AnalogTransfer where
  humOffset : ℚ
  humSlope : ℚ
  tempOffset : ℚ
  tempSlope : ℚ
deriving DecidableEq

/-- Full-scale ADC reading at the configured resolution (spec §4.4,
default 10 bits). -/
def SHT3xAnalogSensor.maxAnalogRead (s : SHT3xAnalogSensor) : ℚ :=
  (2 : ℚ) ^ s.mReadResolutionBits - 1

/-- Modelled from the spec: `SHT3xAnalogSensor::readHumidity` (declared
at `SHTSensor.h:311`, body in the missing `SHTSensor.cpp`) — read the
humidity ADC pin and scale linearly (spec §4.4). -/
def SHT3xAnalogSensor.readHumidity (adc : Nat → Nat) (tf : AnalogTransfer)
    (s : SHT3xAnalogSensor) : ℚ :=
  tf.humOffset +
    tf.humSlope * ((adc s.mHumidityAdcPin : ℚ) / s.maxAnalogRead)

/-- Modelled from the spec: `SHT3xAnalogSensor::readTemperature`
(declared at `SHTSensor.h:312`, body in the missing `SHTSensor.cpp`) —
read the temperature ADC pin and scale linearly (spec §4.4). -/
def SHT3xAnalogSensor.readTemperature (adc : Nat → Nat)
    (tf : AnalogTransfer) (s : SHT3xAnalogSensor) : ℚ :=
  tf.tempOffset +
    tf.tempSlope * ((adc s.mTemperatureAdcPin : ℚ) / s.maxAnalogRead)

/-- Modelled from the spec: `SHT3xAnalogSensor::readSample` (declared at
`SHTSensor.h:309`, body in the missing `SHTSensor.cpp`).  Per spec §4.4:
read and scale both channels, store them into the cached fields, and
always succeed — there is no failure path. -/
def SHT3xAnalogSensor.readSample (adc : Nat → Nat) (tf : AnalogTransfer)
    (s : SHT3xAnalogSensor) : Bool × SHT3xAnalogSensor :=
  (true,
    { s with
      mHumidity := s.readHumidity adc tf,
      mTemperature := s.readTemperature adc tf })

/-! ## Driver polymorphism -/

/-- The concrete drivers behind the abstract `SHTSensorDriver`
(`SHTSensor.h:175-217`): the generic i2c driver and the analog driver. -/
inductive SHTSensorDriver where
  | i2c : SHTI2cSensor → SHTSensorDriver
  | analog : SHT3xAnalogSensor → SHTSensorDriver
deriving DecidableEq

/-- Cached temperature of the held driver (`SHTSensor.h:211-213`). -/
def SHTSensorDriver.getTemperature : SHTSensorDriver → ℚ
  | .i2c s => s.mTemperature
  | .analog s => s.mTemperature

/-- Cached humidity of the held driver (`SHTSensor.h:203-205`). -/
def SHTSensorDriver.getHumidity : SHTSensorDriver → ℚ
  | .i2c s => s.mHumidity
  | .analog s => s.mHumidity

/-- Virtual dispatch of `readSample` (`SHTSensor.h:197`) to the concrete
driver.  The i2c driver consults the bus oracle `env`; the analog driver
consults the ADC oracle `adc` and its transfer function `tf`. -/
def SHTSensorDriver.readSample (env : I2cEnv) (adc : Nat → Nat)
    (tf : AnalogTransfer) : SHTSensorDriver → Bool × SHTSensorDriver
  | .i2c s => ((s.readSample env).1, .i2c (s.readSample env).2)
  | .analog s => ((s.readSample adc tf).1, .analog (s.readSample adc tf).2)

/-- Accuracy enum of the facade (`SHTSensor.h:67-74`). -/
inductive SHTAccuracy where
  | SHT_ACCURACY_HIGH
  | SHT_ACCURACY_MEDIUM
  | SHT_ACCURACY_LOW
deriving DecidableEq

/-- Embeds the base-class default `SHTSensorDriver::setAccuracy`
(`SHTSensor.h:184-186`): neither concrete driver overrides it, so every
driver returns false and is left unchanged. -/
def SHTSensorDriver.setAccuracy (newAccuracy : SHTAccuracy)
    (d : SHTSensorDriver) : Bool × SHTSensorDriver :=
  (false, d)

/-- Virtual dispatch of `setI2cAddress`: the i2c driver overrides it
(`SHTSensor.h:252-255`); the analog driver keeps the base-class default
returning false (`SHTSensor.h:192-194`). -/
def SHTSensorDriver.setI2cAddress (newAddress : Nat) :
    SHTSensorDriver → Bool × SHTSensorDriver
  | .i2c s =>
      ((s.setI2cAddress newAddress).1, .i2c (s.setI2cAddress newAddress).2)
  | .analog s => (false, .analog s)

/-! ## Facade -/

/-- Sensor type enum of the facade (`SHTSensor.h:48-61`). -/
inductive SHTSensorType where
  | AutoDetect
  | SHT3x
  | SHT3xAlt
  | SHTC1
  | SHTW1
  | SHTW2
  | SHT3xAnalog
deriving DecidableEq

/-- State of the `SHTSensor` facade (`SHTSensor.h:160-167`): ownership
flag, optionally held driver, requested sensor type, and the cached
sample pair. -/
structure SHTSensor where
  mOwnSensor : Bool
  mSensor : Option SHTSensorDriver
  mSensorType : SHTSensorType
  mTemperature : ℚ
  mHumidity : ℚ
deriving DecidableEq

/-- Modelled from the spec: the sentinel `SHTSensor::TEMPERATURE_INVALID`
(declared at `SHTSensor.h:79`, value in the missing `SHTSensor.cpp`);
spec §6 fixes only that it is an implementation-defined constant, so the
value here is a placeholder. -/
def SHTSensor.TEMPERATURE_INVALID : ℚ := -1000

/-- Modelled from the spec: the sentinel `SHTSensor::HUMIDITY_INVALID`
(declared at `SHTSensor.h:77`, value in the missing `SHTSensor.cpp`);
spec §6 fixes only that it is an implementation-defined constant, so the
value here is a placeholder. -/
def SHTSensor.HUMIDITY_INVALID : ℚ := -1000

/-- Embeds the `SHTSensor` constructor (`SHTSensor.h:99-108`): the cache
starts at the invalid sentinels; type, driver pointer and ownership flag
are stored as given. -/
def SHTSensor.construct (sensorType : SHTSensorType)
    (sensor : Option SHTSensorDriver) (ownSensor : Bool) : SHTSensor :=
  { mTemperature := SHTSensor.TEMPERATURE_INVALID,
    mHumidity := SHTSensor.HUMIDITY_INVALID,
    mSensorType := sensorType,
    mSensor := sensor,
    mOwnSensor := ownSensor }

/-- Embeds `SHTSensor::getHumidity` (`SHTSensor.h:133-135`). -/
def SHTSensor.getHumidity (f : SHTSensor) : ℚ := f.mHumidity

/-- Embeds `SHTSensor::getTemperature` (`SHTSensor.h:141-143`). -/
def SHTSensor.getTemperature (f : SHTSensor) : ℚ := f.mTemperature

/-- Modelled from the spec: `SHTSensor::readSample` (declared at
`SHTSensor.h:127`, body in the missing `SHTSensor.cpp`).  Per spec §4.5:
delegate to the held driver; on success copy the driver cache into the
facade cache and return true; on failure, or with no driver held, leave
the facade cache unchanged and return false. -/
def SHTSensor.readSample (env : I2cEnv) (adc : Nat → Nat)
    (tf : AnalogTransfer) (f : SHTSensor) : Bool × SHTSensor :=
  match f.mSensor with
  | none => (false, f)
  | some d =>
      let r := d.readSample env adc tf
      if r.1 then
        (true,
          { f with
            mSensor := some r.2,
            mTemperature := r.2.getTemperature,
            mHumidity := r.2.getHumidity })
      else (false, { f with mSensor := some r.2 })

/-- Modelled from the spec: `SHTSensor::setAccuracy` (declared at
`SHTSensor.h:149`, body in the missing `SHTSensor.cpp`); spec §4.5:
delegate to the held driver if present, else return false. -/
def SHTSensor.setAccuracy (newAccuracy : SHTAccuracy) (f : SHTSensor) :
    Bool × SHTSensor :=
  match f.mSensor with
  | none => (false, f)
  | some d =>
      let r := d.setAccuracy newAccuracy
      (r.1, { f with mSensor := some r.2 })

/-- Modelled from the spec: `SHTSensor::setI2cAddress` (declared at
`SHTSensor.h:158`, body in the missing `SHTSensor.cpp`); spec §4.5:
delegate to the held driver if present, else return false. -/
def SHTSensor.setI2cAddress (newAddress : Nat) (f : SHTSensor) :
    Bool × SHTSensor :=
  match f.mSensor with
  | none => (false, f)
  | some d =>
      let r := d.setI2cAddress newAddress
      (r.1, { f with mSensor := some r.2 })

/-- Modelled from the spec: `SHTSensor::cleanup`, called by the
destructor `~SHTSensor` (`SHTSensor.h:110-112`; body of `cleanup` in the
missing `SHTSensor.cpp`).  Per spec §4.5 the destructor releases the held
driver only if the ownership flag is set.  The embedding returns the
driver that destruction frees, `none` when nothing is freed. -/
def SHTSensor.cleanup (f : SHTSensor) : Option SHTSensorDriver :=
  if f.mOwnSensor then f.mSensor else none

/-- Modelled from the spec: the auto-detect probe loop of
`SHTSensor::init` (spec §4.5) — try each candidate i2c driver in order,
keeping the first whose trial read succeeds. -/
def autoDetectSensor (env : I2cEnv) :
    List SHTI2cSensor → Option SHTI2cSensor
  | [] => none
  | c :: rest =>
      let r := c.readSample env
      if r.1 then some r.2 else autoDetectSensor env rest

/-- Modelled from the spec: the fixed driver construction table of
`SHTSensor::init` — the auto-detect priority list
(`AUTO_DETECT_SENSORS`, declared at `SHTSensor.h:85`) and the
parameterless per-type driver constructors; their concrete parameters
live in the missing `SHTSensor.cpp`. -/
structure DriverConfig where
  autoDetectList : List SHTI2cSensor
  driverForType : SHTSensorType → Option SHTI2cSensor

/-- Modelled from the spec: `SHTSensor::init` (declared at
`SHTSensor.h:119`, body in the missing `SHTSensor.cpp`).  Per spec §4.5:
an explicitly supplied driver is adopted, not owned; otherwise an
auto-detect type probes the candidate list and owns the first match; an
explicit type constructs its driver from the table and owns it; with no
driver obtainable, init fails. -/
def SHTSensor.init (env : I2cEnv) (cfg : DriverConfig)
    (driver : Option SHTSensorDriver) (f : SHTSensor) : Bool × SHTSensor :=
  match driver with
  | some d => (true, { f with mSensor := some d, mOwnSensor := false })
  | none =>
      if f.mSensorType = SHTSensorType.AutoDetect then
        match autoDetectSensor env cfg.autoDetectList with
        | some s =>
            (true, { f with mSensor := some (.i2c s), mOwnSensor := true })
        | none => (false, f)
      else
        match cfg.driverForType f.mSensorType with
        | some s =>
            (true, { f with mSensor := some (.i2c s), mOwnSensor := true })
        | none => (false, f)

/-- States of the facade reachable before any successful facade-level
`readSample`: freshly constructed, or reached from such a state by an
`init`, a failed `readSample`, a `setAccuracy` or a `setI2cAddress`. -/
inductive ReachedNoSuccessfulRead : SHTSensor → Prop where
  | construct (t : SHTSensorType) (d : Option SHTSensorDriver)
      (own : Bool) : ReachedNoSuccessfulRead (SHTSensor.construct t d own)
  | initStep (env : I2cEnv) (cfg : DriverConfig)
      (driver : Option SHTSensorDriver) (f : SHTSensor) :
      ReachedNoSuccessfulRead f →
      ReachedNoSuccessfulRead (SHTSensor.init env cfg driver f).2
  | failedRead (env : I2cEnv) (adc : Nat → Nat) (tf : AnalogTransfer)
      (f : SHTSensor) : ReachedNoSuccessfulRead f →
      (SHTSensor.readSample env adc tf f).1 = false →
      ReachedNoSuccessfulRead (SHTSensor.readSample env adc tf f).2
  | accStep (a : SHTAccuracy) (f : SHTSensor) :
      ReachedNoSuccessfulRead f →
      ReachedNoSuccessfulRead (SHTSensor.setAccuracy a f).2
  | addrStep (a : Nat) (f : SHTSensor) :
      ReachedNoSuccessfulRead f →
      ReachedNoSuccessfulRead (SHTSensor.setI2cAddress a f).2

/-! ## Supporting lemmas -/

theorem shiftLeft8_or_eq (d0 d1 : Nat) (h : d1 < 256) :
    (d0 <<< 8) ||| d1 = d0 * 256 + d1 := by
  have h2 : d1 < 2 ^ 8 := by simpa using h
  have hmod : ((d0 <<< 8) ||| d1) % 2 ^ 8 = d1 := by
    apply Nat.eq_of_testBit_eq
    intro i
    rw [Nat.testBit_mod_two_pow, Nat.testBit_lor, Nat.testBit_shiftLeft]
    by_cases hi : i < 8
    · have hge : ¬(i ≥ 8) := by omega
      simp [hi, hge]
    · have hd1 : d1.testBit i = false :=
        Nat.testBit_lt_two_pow
          (lt_of_lt_of_le h2 (Nat.pow_le_pow_right (by norm_num) (by omega)))
      simp [hi, hd1]
  have hdiv : ((d0 <<< 8) ||| d1) / 2 ^ 8 = d0 := by
    rw [← Nat.shiftRight_eq_div_pow]
    apply Nat.eq_of_testBit_eq
    intro i
    rw [Nat.testBit_shiftRight, Nat.testBit_lor, Nat.testBit_shiftLeft]
    have hge : 8 + i ≥ 8 := by omega
    have hd1 : d1.testBit (8 + i) = false :=
      Nat.testBit_lt_two_pow
        (lt_of_lt_of_le h2 (Nat.pow_le_pow_right (by norm_num) (by omega)))
    have hidx : 8 + i - 8 = i := by omega
    simp [hd1, hge, hidx]
  calc (d0 <<< 8) ||| d1
      = 2 ^ 8 * (((d0 <<< 8) ||| d1) / 2 ^ 8) +
          ((d0 <<< 8) ||| d1) % 2 ^ 8 := (Nat.div_add_mod _ _).symm
    _ = 2 ^ 8 * d0 + d1 := by rw [hdiv, hmod]
    _ = d0 * 256 + d1 := by ring

theorem parseFrame_fst_true_or_snd_eq (s : SHTI2cSensor) (l : List Nat) :
    (s.parseFrame l).1 = true ∨ (s.parseFrame l).2 = s := by
  unfold SHTI2cSensor.parseFrame
  split
  · split
    · exact Or.inr rfl
    · exact Or.inl rfl
  · exact Or.inr rfl

/-- Any failing i2c `readSample` leaves the driver state unchanged. -/
theorem readSample_failed_unchanged (env : I2cEnv) (s : SHTI2cSensor)
    (h : (s.readSample env).1 = false) : (s.readSample env).2 = s := by
  unfold SHTI2cSensor.readSample at h ⊢
  by_cases htrans : readFromI2c env s.mI2cAddress s.cmdBytes = true
  · rw [htrans, if_pos rfl] at h ⊢
    rcases parseFrame_fst_true_or_snd_eq s
        (env.dataRead s.mI2cAddress s.cmdBytes) with h1 | h1
    · rw [h1] at h; cases h
    · exact h1
  · rw [if_neg htrans]

theorem readFromI2cAux_used_le (env : I2cEnv) (addr : Nat)
    (cmd : List Nat) :
    ∀ tries used, (readFromI2cAux env addr cmd tries used).2 ≤ used + tries := by
  intro tries
  induction tries with
  | zero => intro used; simp [readFromI2cAux]
  | succ t ih =>
      intro used
      rw [readFromI2cAux]
      split
      · simp
      · calc (readFromI2cAux env addr cmd t (used + 1)).2 ≤ used + 1 + t :=
              ih (used + 1)
          _ = used + (t + 1) := by omega

theorem readFromI2cAux_fst_iff (env : I2cEnv) (addr : Nat)
    (cmd : List Nat) :
    ∀ tries used, (readFromI2cAux env addr cmd tries used).1 = true ↔
      ∃ i, used ≤ i ∧ i < used + tries ∧
        attemptOk (env.attemptOutcome addr cmd i) = true := by
  intro tries
  induction tries with
  | zero =>
      intro used
      simp only [readFromI2cAux]
      constructor
      · intro h; cases h
      · rintro ⟨i, h1, h2, _⟩; omega
  | succ t ih =>
      intro used
      rw [readFromI2cAux]
      by_cases hfirst : attemptOk (env.attemptOutcome addr cmd used) = true
      · rw [if_pos hfirst]
        constructor
        · intro _; exact ⟨used, Nat.le_refl _, by omega, hfirst⟩
        · intro _; rfl
      · rw [if_neg hfirst, ih (used + 1)]
        constructor
        · rintro ⟨i, h1, h2, h3⟩
          exact ⟨i, by omega, by omega, h3⟩
        · rintro ⟨i, h1, h2, h3⟩
          refine ⟨i, ?_, by omega, h3⟩
          rcases Nat.eq_or_lt_of_le h1 with rfl | hlt
          · exact absurd h3 hfirst
          · omega

theorem readFromI2cAux_congr (env env2 : I2cEnv) (addr : Nat)
    (cmd : List Nat)
    (h : ∀ i, env.attemptOutcome addr cmd i = env2.attemptOutcome addr cmd i) :
    ∀ tries used,
      readFromI2cAux env addr cmd tries used =
        readFromI2cAux env2 addr cmd tries used := by
  intro tries
  induction tries with
  | zero => intro used; rfl
  | succ t ih =>
      intro used
      rw [readFromI2cAux, readFromI2cAux, h used]
      split
      · rfl
      · exact ih (used + 1)

/-- `readSample` consults the bus oracle only at the driver's stored
address: two environments that agree there produce identical results. -/
theorem readSample_depends_only_on_addr (s : SHTI2cSensor)
    (env env2 : I2cEnv)
    (hA : ∀ cmd i, env.attemptOutcome s.mI2cAddress cmd i =
        env2.attemptOutcome s.mI2cAddress cmd i)
    (hD : ∀ cmd, env.dataRead s.mI2cAddress cmd =
        env2.dataRead s.mI2cAddress cmd) :
    s.readSample env = s.readSample env2 := by
  unfold SHTI2cSensor.readSample readFromI2c
  rw [readFromI2cAux_congr env env2 _ _ (hA s.cmdBytes) _ _, hD s.cmdBytes]

/-- `init` never touches the facade's cached sample. -/
theorem init_preserves_cache (env : I2cEnv) (cfg : DriverConfig)
    (driver : Option SHTSensorDriver) (f : SHTSensor) :
    (SHTSensor.init env cfg driver f).2.mTemperature = f.mTemperature ∧
    (SHTSensor.init env cfg driver f).2.mHumidity = f.mHumidity := by
  unfold SHTSensor.init
  cases driver with
  | some d => exact ⟨rfl, rfl⟩
  | none =>
      by_cases h : f.mSensorType = SHTSensorType.AutoDetect
      · rw [if_pos h]
        cases autoDetectSensor env cfg.autoDetectList <;> exact ⟨rfl, rfl⟩
      · rw [if_neg h]
        cases cfg.driverForType f.mSensorType <;> exact ⟨rfl, rfl⟩

/-- A failing facade `readSample` never touches the facade's cached
sample. -/
theorem facade_readSample_failed_cache (env : I2cEnv) (adc : Nat → Nat)
    (tf : AnalogTransfer) (f : SHTSensor)
    (h : (SHTSensor.readSample env adc tf f).1 = false) :
    (SHTSensor.readSample env adc tf f).2.mTemperature = f.mTemperature ∧
    (SHTSensor.readSample env adc tf f).2.mHumidity = f.mHumidity := by
  cases hs : f.mSensor with
  | none => simp [SHTSensor.readSample, hs]
  | some d =>
      simp only [SHTSensor.readSample, hs] at h ⊢
      by_cases hr : (SHTSensorDriver.readSample env adc tf d).1 = true
      · simp [hr] at h
      · simp [hr]

/-- `setAccuracy` never touches the facade's cached sample. -/
theorem setAccuracy_preserves_cache (a : SHTAccuracy) (f : SHTSensor) :
    (SHTSensor.setAccuracy a f).2.mTemperature = f.mTemperature ∧
    (SHTSensor.setAccuracy a f).2.mHumidity = f.mHumidity := by
  unfold SHTSensor.setAccuracy
  cases f.mSensor <;> exact ⟨rfl, rfl⟩

/-- `setI2cAddress` never touches the facade's cached sample. -/
theorem setI2cAddress_preserves_cache (a : Nat) (f : SHTSensor) :
    (SHTSensor.setI2cAddress a f).2.mTemperature = f.mTemperature ∧
    (SHTSensor.setI2cAddress a f).2.mHumidity = f.mHumidity := by
  unfold SHTSensor.setI2cAddress
  cases f.mSensor <;> exact ⟨rfl, rfl⟩

/-- Flip bit `k` of byte `j` of a frame: the single-bit corruptions of
spec §8. -/
def corruptBit (frame : List Nat) (j k : Nat) : List Nat :=
  frame.set j (frame.getD j 0 ^^^ 2 ^ k)

theorem two_pow_ne_zero (k : Nat) : (2 : Nat) ^ k ≠ 0 :=
  (Nat.two_pow_pos k).ne'

/-! ## Claims -/

/-- C1: for every valid 6-byte response
`[t_msb, t_lsb, t_crc, h_msb, h_lsb, h_crc]` in which each group's CRC
byte matches the CRC-8 of its two data bytes, `SHTI2cSensor::readSample`
returns true, the cached temperature equals `a + b*(rawT/c)` and the
cached humidity equals `x*(rawH/y)`, where `rawT`/`rawH` are the 16-bit
values `MSB<<8 | LSB` of the respective groups and `a,b,c,x,y` are the
per-instance coefficients. -/
theorem C1_readSample_valid_frame (s : SHTI2cSensor) (env : I2cEnv)
    (d0 d1 d2 d3 d4 d5 : Nat) (h1 : d1 < 256) (h4 : d4 < 256)
    (htrans : readFromI2c env s.mI2cAddress s.cmdBytes = true)
    (hdata : env.dataRead s.mI2cAddress s.cmdBytes = [d0, d1, d2, d3, d4, d5])
    (hcrcT : crc8 [d0, d1] = d2) (hcrcH : crc8 [d3, d4] = d5) :
    (s.readSample env).1 = true ∧
    (s.readSample env).2.mTemperature =
      s.mA + s.mB * (((d0 * 256 + d1 : Nat) : ℚ) / s.mC) ∧
    (s.readSample env).2.mHumidity =
      s.mX * (((d3 * 256 + d4 : Nat) : ℚ) / s.mY) := by
  have hvT := shiftLeft8_or_eq d0 d1 h1
  have hvH := shiftLeft8_or_eq d3 d4 h4
  unfold SHTI2cSensor.readSample
  rw [htrans, if_pos rfl, hdata]
  simp only [SHTI2cSensor.parseFrame]
  rw [if_neg (by simp [hcrcT, hcrcH]), hvT, hvH]
  exact ⟨rfl, rfl, rfl⟩

/-- C1 witness: a concrete SHT3x-style sensor and a bus delivering the
all-zero frame with its correct CRC byte `0x81` per group. -/
theorem C1_readSample_valid_frame_witness :
    ((SHTI2cSensor.readSample
        ⟨fun _ _ _ => ⟨true, true⟩, fun _ _ => [0, 0, 0x81, 0, 0, 0x81]⟩
        ⟨0x44, 0x2C06, -45, 175, 65535, 100, 65535, 0, 0⟩).1 = true ∧
      (SHTI2cSensor.readSample
        ⟨fun _ _ _ => ⟨true, true⟩, fun _ _ => [0, 0, 0x81, 0, 0, 0x81]⟩
        ⟨0x44, 0x2C06, -45, 175, 65535, 100, 65535, 0, 0⟩).2.mTemperature =
        -45 + 175 * (((0 * 256 + 0 : Nat) : ℚ) / 65535) ∧
      (SHTI2cSensor.readSample
        ⟨fun _ _ _ => ⟨true, true⟩, fun _ _ => [0, 0, 0x81, 0, 0, 0x81]⟩
        ⟨0x44, 0x2C06, -45, 175, 65535, 100, 65535, 0, 0⟩).2.mHumidity =
        100 * (((0 * 256 + 0 : Nat) : ℚ) / 65535)) :=
  C1_readSample_valid_frame _ _ 0 0 0x81 0 0 0x81 (by decide) (by decide)
    (by decide) rfl (by decide) (by decide)

/-- C2: every failed i2c read leaves the driver cache unchanged; any
single-bit corruption of a data or CRC byte in either group of an
otherwise valid 6-byte response makes `readSample` return false with the
driver state unchanged; and the facade copies the driver cache into its
own cache only when the delegated read succeeds — on a failed delegated
read the facade returns false and its cache is untouched. -/
theorem C2_failed_read_preserves_cache :
    (∀ (env : I2cEnv) (s : SHTI2cSensor),
      (s.readSample env).1 = false → (s.readSample env).2 = s) ∧
    (∀ (env : I2cEnv) (s : SHTI2cSensor) (d0 d1 d2 d3 d4 d5 j k : Nat),
      j < 6 → k < 8 → crc8 [d0, d1] = d2 → crc8 [d3, d4] = d5 →
      env.dataRead s.mI2cAddress s.cmdBytes =
        corruptBit [d0, d1, d2, d3, d4, d5] j k →
      (s.readSample env).1 = false ∧ (s.readSample env).2 = s) ∧
    (∀ (env : I2cEnv) (adc : Nat → Nat) (tf : AnalogTransfer)
      (f : SHTSensor) (d : SHTSensorDriver), f.mSensor = some d →
      (d.readSample env adc tf).1 = false →
      (SHTSensor.readSample env adc tf f).1 = false ∧
      (SHTSensor.readSample env adc tf f).2.mTemperature = f.mTemperature ∧
      (SHTSensor.readSample env adc tf f).2.mHumidity = f.mHumidity) := by
  refine ⟨readSample_failed_unchanged, ?_, ?_⟩
  · intro env s d0 d1 d2 d3 d4 d5 j k hj hk hcrcT hcrcH hdata
    have hfalse : (s.readSample env).1 = false := by
      unfold SHTI2cSensor.readSample
      by_cases htrans : readFromI2c env s.mI2cAddress s.cmdBytes = true
      · rw [htrans, if_pos rfl, hdata]
        interval_cases j
        · simp only [corruptBit, List.set, List.getD, List.get?, Option.getD]
          simp only [SHTI2cSensor.parseFrame]
          rw [if_pos (Or.inl (hcrcT ▸ crc8_flip_fst_ne d0 d1 k hk))]
        · simp only [corruptBit, List.set, List.getD, List.get?, Option.getD]
          simp only [SHTI2cSensor.parseFrame]
          rw [if_pos (Or.inl (hcrcT ▸ crc8_flip_snd_ne d0 d1 k hk))]
        · simp only [corruptBit, List.set, List.getD, List.get?, Option.getD]
          simp only [SHTI2cSensor.parseFrame]
          have hne : crc8 [d0, d1] ≠ d2 ^^^ 2 ^ k := by
            rw [hcrcT]
            exact fun hEq => xor_ne_self d2 (2 ^ k) (two_pow_ne_zero k) hEq.symm
          rw [if_pos (Or.inl hne)]
        · simp only [corruptBit, List.set, List.getD, List.get?, Option.getD]
          simp only [SHTI2cSensor.parseFrame]
          rw [if_pos (Or.inr (hcrcH ▸ crc8_flip_fst_ne d3 d4 k hk))]
        · simp only [corruptBit, List.set, List.getD, List.get?, Option.getD]
          simp only [SHTI2cSensor.parseFrame]
          rw [if_pos (Or.inr (hcrcH ▸ crc8_flip_snd_ne d3 d4 k hk))]
        · simp only [corruptBit, List.set, List.getD, List.get?, Option.getD]
          simp only [SHTI2cSensor.parseFrame]
          have hne : crc8 [d3, d4] ≠ d5 ^^^ 2 ^ k := by
            rw [hcrcH]
            exact fun hEq => xor_ne_self d5 (2 ^ k) (two_pow_ne_zero k) hEq.symm
          rw [if_pos (Or.inr hne)]
      · rw [if_neg htrans]
    exact ⟨hfalse, readSample_failed_unchanged env s hfalse⟩
  · intro env adc tf f d hs hfail
    have hfalse : (SHTSensor.readSample env adc tf f).1 = false := by
      simp only [SHTSensor.readSample, hs]
      simp [hfail]
    exact ⟨hfalse, facade_readSample_failed_cache env adc tf f hfalse⟩

/-- C2 witness: flipping bit 0 of the first data byte of the valid
all-zero frame makes the concrete sensor's read fail and leave its state
unchanged. -/
theorem C2_failed_read_preserves_cache_witness :
    (SHTI2cSensor.readSample
        ⟨fun _ _ _ => ⟨true, true⟩,
          fun _ _ => corruptBit [0, 0, 0x81, 0, 0, 0x81] 0 0⟩
        ⟨0x44, 0x2C06, -45, 175, 65535, 100, 65535, 0, 0⟩).1 = false ∧
    (SHTI2cSensor.readSample
        ⟨fun _ _ _ => ⟨true, true⟩,
          fun _ _ => corruptBit [0, 0, 0x81, 0, 0, 0x81] 0 0⟩
        ⟨0x44, 0x2C06, -45, 175, 65535, 100, 65535, 0, 0⟩).2 =
      ⟨0x44, 0x2C06, -45, 175, 65535, 100, 65535, 0, 0⟩ :=
  C2_failed_read_preserves_cache.2.1 _ _ 0 0 0x81 0 0 0x81 0 0
    (by decide) (by decide) (by decide) (by decide) rfl

/-- C3: `crc8` is the pure bit-wise CRC-8 with polynomial `0x31` and
initial value `0xFF`, processing each byte MSB-first with eight
shift-and-conditionally-XOR iterations after XOR-ing the byte into the
running value; over `[0x00, 0x00]` it yields `0x81`. -/
theorem C3_crc8_algorithm :
    crc8 [] = 0xFF ∧
    (∀ (l : List Nat) (b : Nat),
      crc8 (l ++ [b]) = crc8Round^[8] (crc8 l ^^^ b)) ∧
    (∀ crc : Nat, crc &&& 0x80 ≠ 0 →
      crc8Round crc = ((crc <<< 1) ^^^ 0x31) % 256) ∧
    (∀ crc : Nat, crc &&& 0x80 = 0 → crc8Round crc = (crc <<< 1) % 256) ∧
    crc8 [0x00, 0x00] = 0x81 := by
  refine ⟨rfl, ?_, ?_, ?_, by decide⟩
  · intro l b
    simp [crc8, List.foldl_append, crc8Update]
  · intro crc h
    unfold crc8Round
    rw [if_pos h]
  · intro crc h
    unfold crc8Round
    rw [if_neg (by simp [h])]

/-- C3 witness: the two branches of the bit iteration at concrete
inputs with the top bit set and clear. -/
theorem C3_crc8_algorithm_witness :
    crc8Round 0xFF = ((0xFF <<< 1) ^^^ 0x31) % 256 ∧
    crc8Round 0x31 = (0x31 <<< 1) % 256 :=
  ⟨C3_crc8_algorithm.2.2.1 0xFF (by decide),
    C3_crc8_algorithm.2.2.2.1 0x31 (by decide)⟩

/-- C4: `readFromI2c` performs at most `MAX_I2C_READ_TRIES` attempts,
each attempt re-issuing both the command write and the data read, and it
returns true exactly when some attempt within that bound completes both
its bus write and its bus read; once the retry count is exhausted it
returns false. -/
theorem C4_readFromI2c_retry_bound (env : I2cEnv) (addr : Nat)
    (cmd : List Nat) :
    (readFromI2cAux env addr cmd MAX_I2C_READ_TRIES 0).2 ≤
      MAX_I2C_READ_TRIES ∧
    (readFromI2c env addr cmd = true ↔
      ∃ i, i < MAX_I2C_READ_TRIES ∧
        (env.attemptOutcome addr cmd i).writeOk = true ∧
        (env.attemptOutcome addr cmd i).readOk = true) := by
  constructor
  · have := readFromI2cAux_used_le env addr cmd MAX_I2C_READ_TRIES 0
    omega
  · rw [readFromI2c, readFromI2cAux_fst_iff env addr cmd MAX_I2C_READ_TRIES 0]
    constructor
    · rintro ⟨i, _, h2, h3⟩
      rw [attemptOk, Bool.and_eq_true] at h3
      exact ⟨i, by omega, h3⟩
    · rintro ⟨i, h1, h2, h3⟩
      exact ⟨i, Nat.zero_le _, by omega, by simp [attemptOk, h2, h3]⟩

/-- C4 witness: on a bus whose first attempt completes both phases the
transaction succeeds within the retry bound. -/
theorem C4_readFromI2c_retry_bound_witness :
    readFromI2c ⟨fun _ _ _ => ⟨true, true⟩, fun _ _ => []⟩ 0x44
      [0x2C, 0x06] = true :=
  (C4_readFromI2c_retry_bound ⟨fun _ _ _ => ⟨true, true⟩, fun _ _ => []⟩
      0x44 [0x2C, 0x06]).2.mpr ⟨0, by decide, rfl, rfl⟩

/-- C5: in every facade state reachable before any successful
`readSample` — immediately after construction, and closed under `init`,
failed reads and the two setters — `getTemperature()` returns
`TEMPERATURE_INVALID` and `getHumidity()` returns `HUMIDITY_INVALID`. -/
theorem C5_cache_invalid_before_first_success (f : SHTSensor)
    (h : ReachedNoSuccessfulRead f) :
    f.getTemperature = SHTSensor.TEMPERATURE_INVALID ∧
    f.getHumidity = SHTSensor.HUMIDITY_INVALID := by
  induction h with
  | construct t d own => exact ⟨rfl, rfl⟩
  | initStep env cfg driver f _ ih =>
      have hp := init_preserves_cache env cfg driver f
      exact ⟨hp.1.trans ih.1, hp.2.trans ih.2⟩
  | failedRead env adc tf f _ hfail ih =>
      have hp := facade_readSample_failed_cache env adc tf f hfail
      exact ⟨hp.1.trans ih.1, hp.2.trans ih.2⟩
  | accStep a f _ ih =>
      have hp := setAccuracy_preserves_cache a f
      exact ⟨hp.1.trans ih.1, hp.2.trans ih.2⟩
  | addrStep a f _ ih =>
      have hp := setI2cAddress_preserves_cache a f
      exact ⟨hp.1.trans ih.1, hp.2.trans ih.2⟩

/-- C5 witness: the freshly constructed facade reports both sentinels. -/
theorem C5_cache_invalid_before_first_success_witness :
    (SHTSensor.construct .AutoDetect none false).getTemperature =
      SHTSensor.TEMPERATURE_INVALID ∧
    (SHTSensor.construct .AutoDetect none false).getHumidity =
      SHTSensor.HUMIDITY_INVALID :=
  C5_cache_invalid_before_first_success _
    (ReachedNoSuccessfulRead.construct _ _ _)

/-- C6: `setI2cAddress(newAddr)` replaces the stored address and returns
true — it is a pure state update, with no bus transaction and no
validation — and the next `readSample` addresses the bus at `newAddr`:
its outcome depends only on the transport's behaviour at `newAddr`. -/
theorem C6_setI2cAddress_roundtrip (s : SHTI2cSensor) (newAddress : Nat) :
    (s.setI2cAddress newAddress).1 = true ∧
    (s.setI2cAddress newAddress).2 = { s with mI2cAddress := newAddress } ∧
    ∀ env env2 : I2cEnv,
      (∀ cmd i, env.attemptOutcome newAddress cmd i =
        env2.attemptOutcome newAddress cmd i) →
      (∀ cmd, env.dataRead newAddress cmd = env2.dataRead newAddress cmd) →
      SHTI2cSensor.readSample env (s.setI2cAddress newAddress).2 =
        SHTI2cSensor.readSample env2 (s.setI2cAddress newAddress).2 := by
  refine ⟨rfl, rfl, fun env env2 hA hD => ?_⟩
  exact readSample_depends_only_on_addr _ env env2 hA hD

/-- C6 witness: after switching the concrete sensor to address `0x45`,
the setter reports success and the subsequent read is determined by the
bus behaviour at `0x45`. -/
theorem C6_setI2cAddress_roundtrip_witness :
    ((SHTI2cSensor.setI2cAddress 0x45
        ⟨0x44, 0x2C06, -45, 175, 65535, 100, 65535, 0, 0⟩).1 = true ∧
      SHTI2cSensor.readSample
          ⟨fun _ _ _ => ⟨true, true⟩, fun _ _ => [0, 0, 0x81, 0, 0, 0x81]⟩
          (SHTI2cSensor.setI2cAddress 0x45
            ⟨0x44, 0x2C06, -45, 175, 65535, 100, 65535, 0, 0⟩).2 =
        SHTI2cSensor.readSample
          ⟨fun _ _ _ => ⟨true, true⟩, fun _ _ => [0, 0, 0x81, 0, 0, 0x81]⟩
          (SHTI2cSensor.setI2cAddress 0x45
            ⟨0x44, 0x2C06, -45, 175, 65535, 100, 65535, 0, 0⟩).2) :=
  ⟨(C6_setI2cAddress_roundtrip
      ⟨0x44, 0x2C06, -45, 175, 65535, 100, 65535, 0, 0⟩ 0x45).1,
    (C6_setI2cAddress_roundtrip
      ⟨0x44, 0x2C06, -45, 175, 65535, 100, 65535, 0, 0⟩ 0x45).2.2 _ _
      (fun _ _ => rfl) (fun _ => rfl)⟩

/-- C7: every unsupported setter returns false and changes no state —
the base-class default `setAccuracy` (which no driver overrides) returns
false and leaves every driver unchanged for every argument, the analog
driver's inherited `setI2cAddress` default returns false and leaves it
unchanged, the facade's setters return false and change nothing when no
driver is held, and otherwise the facade reports exactly the delegated
driver's result. -/
theorem C7_unsupported_setters_return_false :
    (∀ (d : SHTSensorDriver) (a : SHTAccuracy),
      d.setAccuracy a = (false, d)) ∧
    (∀ (s : SHT3xAnalogSensor) (addr : Nat),
      SHTSensorDriver.setI2cAddress addr (.analog s) = (false, .analog s)) ∧
    (∀ (f : SHTSensor) (a : SHTAccuracy), f.mSensor = none →
      SHTSensor.setAccuracy a f = (false, f)) ∧
    (∀ (f : SHTSensor) (addr : Nat), f.mSensor = none →
      SHTSensor.setI2cAddress addr f = (false, f)) ∧
    (∀ (f : SHTSensor) (d : SHTSensorDriver) (a : SHTAccuracy),
      f.mSensor = some d →
      (SHTSensor.setAccuracy a f).1 = (d.setAccuracy a).1) := by
  refine ⟨fun d a => rfl, fun s addr => rfl, ?_, ?_, ?_⟩
  · intro f a hs
    simp [SHTSensor.setAccuracy, hs]
  · intro f addr hs
    simp [SHTSensor.setI2cAddress, hs]
  · intro f d a hs
    simp [SHTSensor.setAccuracy, hs]

/-- C7 witness: a driverless facade rejects both setters and is left
unchanged. -/
theorem C7_unsupported_setters_return_false_witness :
    SHTSensor.setAccuracy .SHT_ACCURACY_HIGH
        (SHTSensor.construct .AutoDetect none false) =
      (false, SHTSensor.construct .AutoDetect none false) ∧
    SHTSensor.setI2cAddress 0x45
        (SHTSensor.construct .AutoDetect none false) =
      (false, SHTSensor.construct .AutoDetect none false) :=
  ⟨C7_unsupported_setters_return_false.2.2.1 _ _ rfl,
    C7_unsupported_setters_return_false.2.2.2.1 _ _ rfl⟩

/-- C8: destruction (the destructor delegates to `cleanup`) releases the
held driver if and only if the ownership flag is set; in particular a
facade constructed around an externally supplied, externally owned
driver (ownership flag false) frees nothing, so the caller may destroy
that driver independently without a double free. -/
theorem C8_destructor_releases_iff_owned :
    (∀ (f : SHTSensor) (d : SHTSensorDriver), f.mSensor = some d →
      (f.cleanup = some d ↔ f.mOwnSensor = true)) ∧
    (∀ (t : SHTSensorType) (d : SHTSensorDriver),
      (SHTSensor.construct t (some d) false).cleanup = none) ∧
    (∀ f : SHTSensor, f.mOwnSensor = false → f.cleanup = none) := by
  refine ⟨?_, fun t d => rfl, ?_⟩
  · intro f d hs
    unfold SHTSensor.cleanup
    constructor
    · intro h
      by_contra hown
      rw [Bool.not_eq_true] at hown
      rw [if_neg (by simp [hown])] at h
      cases h
    · intro hown
      rw [if_pos hown, hs]
  · intro f hown
    unfold SHTSensor.cleanup
    rw [if_neg (by simp [hown])]

/-- C8 witness: an owning facade frees its driver; a non-owning facade
constructed around the same externally owned driver frees nothing. -/
theorem C8_destructor_releases_iff_owned_witness :
    (SHTSensor.construct .SHT3x
        (some (.analog ⟨1, 2, 10, 0, 0⟩)) true).cleanup =
      some (.analog ⟨1, 2, 10, 0, 0⟩) ∧
    (SHTSensor.construct .SHT3x
        (some (.analog ⟨1, 2, 10, 0, 0⟩)) false).cleanup = none :=
  ⟨(C8_destructor_releases_iff_owned.1 _ _ rfl).mpr rfl,
    C8_destructor_releases_iff_owned.2.1 .SHT3x (.analog ⟨1, 2, 10, 0, 0⟩)⟩

/-- C9: `SHT3xAnalogSensor::readSample` always returns true: for every
pair of ADC readings on the configured pins it scales them linearly to
physical units, stores the results in the cached fields, and reports
success — there is no failure path. -/
theorem C9_analog_readSample_total (adc : Nat → Nat) (tf : AnalogTransfer)
    (s : SHT3xAnalogSensor) :
    (s.readSample adc tf).1 = true ∧
    (s.readSample adc tf).2.mHumidity =
      tf.humOffset +
        tf.humSlope * ((adc s.mHumidityAdcPin : ℚ) / s.maxAnalogRead) ∧
    (s.readSample adc tf).2.mTemperature =
      tf.tempOffset +
        tf.tempSlope * ((adc s.mTemperatureAdcPin : ℚ) / s.maxAnalogRead) :=
  ⟨rfl, rfl, rfl⟩

/-- C9 witness: a concrete analog driver read at half scale succeeds. -/
theorem C9_analog_readSample_total_witness :
    (SHT3xAnalogSensor.readSample (fun _ => 512) ⟨-12, 125, -66, 218⟩
      ⟨1, 2, 10, 0, 0⟩).1 = true :=
  (C9_analog_readSample_total (fun _ => 512) ⟨-12, 125, -66, 218⟩
      ⟨1, 2, 10, 0, 0⟩).1

/-- C10: `setI2cAddress(newAddr)` modifies only the stored i2c address:
the command word, the five conversion coefficients and the cached sample
are all unchanged. -/
theorem C10_setI2cAddress_frame (s : SHTI2cSensor) (newAddress : Nat) :
    (s.setI2cAddress newAddress).2.mI2cAddress = newAddress ∧
    (s.setI2cAddress newAddress).2.mI2cCommand = s.mI2cCommand ∧
    (s.setI2cAddress newAddress).2.mA = s.mA ∧
    (s.setI2cAddress newAddress).2.mB = s.mB ∧
    (s.setI2cAddress newAddress).2.mC = s.mC ∧
    (s.setI2cAddress newAddress).2.mX = s.mX ∧
    (s.setI2cAddress newAddress).2.mY = s.mY ∧
    (s.setI2cAddress newAddress).2.mTemperature = s.mTemperature ∧
    (s.setI2cAddress newAddress).2.mHumidity = s.mHumidity :=
  ⟨rfl, rfl, rfl, rfl, rfl, rfl, rfl, rfl, rfl⟩

/-- C10 witness: switching the concrete sensor's address to `0x45`
leaves its command word and coefficients as constructed. -/
theorem C10_setI2cAddress_frame_witness :
    (SHTI2cSensor.setI2cAddress 0x45
        ⟨0x44, 0x2C06, -45, 175, 65535, 100, 65535, 0, 0⟩).2.mI2cAddress =
      0x45 ∧
    (SHTI2cSensor.setI2cAddress 0x45
        ⟨0x44, 0x2C06, -45, 175, 65535, 100, 65535, 0, 0⟩).2.mI2cCommand =
      (⟨0x44, 0x2C06, -45, 175, 65535, 100, 65535, 0, 0⟩ :
        SHTI2cSensor).mI2cCommand :=
  ⟨(C10_setI2cAddress_frame
      ⟨0x44, 0x2C06, -45, 175, 65535, 100, 65535, 0, 0⟩ 0x45).1,
    (C10_setI2cAddress_frame
      ⟨0x44, 0x2C06, -45, 175, 65535, 100, 65535, 0, 0⟩ 0x45).2.1⟩

end SHT
